import Mathlib

/-!
Verification development for the UAV operator-console repository.

This file gives a shallow embedding, in Lean 4, of the parts of the
code base that the specification's claims are about:

* `src/src/views/uavs/UAVList.jsx` — the grid/list item builders
  (`createGridItems`, `createListItems`), the label-derivation rules,
  the toolbar visibility logic of `UAVListPresentation`, and the
  `onSelectSection` thunk (bucket-header selection toggling via lodash
  `difference` / `union`);
* the mission-mapping store (`adjustMissionMapping`) and the
  displayed-id-list selector, which are not part of the provided source
  excerpt and are therefore modelled from the specification's words;
* the `UAVFeature` OpenLayers feature class (heading / selected / color
  setters and style derivation);
* the GeoJSON layer-settings `_handleClick` import handler;
* the layer registry (`LayerType`, `createNewLayer`,
  `defaultParametersForLayerType`).

JavaScript idioms are embedded explicitly: `undefined` becomes `Option`,
the truthiness-based `x || y` on strings becomes `jsOrStr` (the empty
string is falsy), relational comparisons against `undefined` (which
evaluate to `false` in JavaScript because `undefined` converts to NaN)
become `jsLtZero` / `jsGeZero`, and reference identity with the
`deletionMarker` sentinel becomes an explicit Boolean flag on entries.
-/

namespace UAVConsole

/-! ## JavaScript value helpers -/

/-- Truthiness of a JavaScript string-or-undefined value: `undefined` and
the empty string are falsy, every other string is truthy. -/
def jsTruthyStr : Option String → Bool
  | none => false
  | some s => !(s.isEmpty)

/-- JavaScript `a || b` where both operands are string-or-undefined:
returns `a` when `a` is truthy, otherwise `b`. -/
def jsOrStr (a b : Option String) : Option String :=
  if jsTruthyStr a then a else b

/-- JavaScript `x < 0` where `x` is a number-or-undefined: `undefined`
converts to NaN, and every comparison with NaN is `false`. -/
def jsLtZero : Option Int → Bool
  | none => false
  | some n => n < 0

/-- JavaScript `x >= 0` where `x` is a number-or-undefined: `undefined`
converts to NaN, and every comparison with NaN is `false`. -/
def jsGeZero : Option Int → Bool
  | none => false
  | some n => 0 ≤ n

/-! ## Display bucket entries

A displayed entry is the triple `[uavId, missionIndex, proposedLabel]`
destructured by `createGridItems` / `createListItems`.  JavaScript
compares one distinguished entry (`deletionMarker`, imported from
`./selectors`) by reference identity (`item === deletionMarker`); the
Boolean field `isDeletionMarker` embeds that identity test. -/

structure UAVListEntry where
  uavId : Option String
  missionIndex : Option Nat
  proposedLabel : Option String
  isDeletionMarker : Bool
  deriving DecidableEq, Repr

/-! ## Label derivation (`UAVList.jsx`)

`createGridItems` (lines 145–151) computes

```
proposedLabel ||
  (showMissionIds
    ? missionIndex !== undefined && (!isInEditMode || uavId === undefined)
      ? formatMissionId(missionIndex)
      : uavId
    : uavId)
```

`createListItems` (lines 217–223) computes

```
proposedLabel ||
  (showMissionIds
    ? missionIndex !== undefined
      ? formatMissionId(missionIndex)
      : uavId
    : uavId)
```

`formatMissionId` lives in `~/utils/formatting` (outside the excerpt),
so both functions take it as a parameter. -/

/-- Label of one grid item, from `createGridItems`. -/
def gridItemLabel (formatMissionId : Nat → String)
    (showMissionIds isInEditMode : Bool) (item : UAVListEntry) :
    Option String :=
  jsOrStr item.proposedLabel
    (if showMissionIds then
      match item.missionIndex with
      | some i =>
          if !isInEditMode || item.uavId.isNone then
            some (formatMissionId i)
          else item.uavId
      | none => item.uavId
     else item.uavId)

/-- Label of one list item, from `createListItems`. -/
def listItemLabel (formatMissionId : Nat → String)
    (showMissionIds : Bool) (item : UAVListEntry) : Option String :=
  jsOrStr item.proposedLabel
    (if showMissionIds then
      match item.missionIndex with
      | some i => some (formatMissionId i)
      | none => item.uavId
     else item.uavId)

/-- A concrete mission-id formatting function, standing in for
`formatMissionId` of `~/utils/formatting` in concrete evaluations
(`s1`, `s2`, … — the exact text is irrelevant to every claim, only that
it is produced by the formatter). -/
def fmtMissionIdSample (i : Nat) : String :=
  String.append "s" (toString (i + 1))

/-! ## Grid items (`createGridItems`, lines 106–184)

Each input entry becomes either a `DronePlaceholder` (when
`uavId === undefined`) or a `DroneAvatar` (otherwise).  The descriptor
records the props the claims are about: the `fill` flag (set exactly
when `item === deletionMarker`), the placeholder's `status`
(`'error'` when `missionIndex === undefined`, `'off'` otherwise, line
165), the rendered label (emptied while this slot is being edited),
whether the item is selected, and whether it is the slot being
edited. -/

/-- `editingThisItem` of `createGridItems` (lines 120–122) /
`editing` of `createListItems` (lines 202–204):
`mappingSlotBeingEdited !== undefined && missionIndex === mappingSlotBeingEdited`.
The cursor is a JavaScript number-or-undefined, mission indices of real
entries are non-negative. -/
def editingThisItem (mappingSlotBeingEdited : Option Int)
    (missionIndex : Option Nat) : Bool :=
  match mappingSlotBeingEdited with
  | none => false
  | some c =>
    match missionIndex with
    | some i => (i : Int) = c
    | none => false

/-- Rendered descriptor of one grid item. -/
inductive GridItem where
  | placeholder (status : String) (label : Option String)
      (fill : Bool) (editing : Bool) (selected : Bool)
  | avatar (uavId : String) (label : Option String)
      (fill : Bool) (editing : Bool) (selected : Bool)
  deriving DecidableEq, Repr

/-- The body of the `items.map` callback in `createGridItems`. -/
def createGridItem (formatMissionId : Nat → String)
    (isInEditMode : Bool) (mappingSlotBeingEdited : Option Int)
    (selectedUAVIds : List String) (showMissionIds : Bool)
    (item : UAVListEntry) : GridItem :=
  let editing := editingThisItem mappingSlotBeingEdited item.missionIndex
  let selected := match item.uavId with
    | some u => selectedUAVIds.contains u
    | none => false
  let fill := item.isDeletionMarker
  let label := gridItemLabel formatMissionId showMissionIds isInEditMode item
  match item.uavId with
  | none =>
      GridItem.placeholder
        (if item.missionIndex.isNone then "error" else "off")
        (if editing then some "" else label) fill editing selected
  | some u =>
      GridItem.avatar u (if editing then some "" else label)
        fill editing selected

/-- `createGridItems`: map the item builder over the entry list. -/
def createGridItems (formatMissionId : Nat → String)
    (isInEditMode : Bool) (mappingSlotBeingEdited : Option Int)
    (selectedUAVIds : List String) (showMissionIds : Bool)
    (items : List UAVListEntry) : List GridItem :=
  items.map
    (createGridItem formatMissionId isInEditMode mappingSlotBeingEdited
      selectedUAVIds showMissionIds)

/-! ## Toolbar visibility (`UAVListPresentation`, lines 320–343)

The app bar renders three `FadeAndSlide` transitions whose `in` props
are: `!editingMapping` (UAV toolbar),
`editingMapping && mappingSlotBeingEdited < 0` (mapping-editor toolbar),
and `editingMapping && mappingSlotBeingEdited >= 0` (slot-editor
toolbar).  The comparisons are JavaScript comparisons, so an
`undefined` cursor makes both `< 0` and `>= 0` evaluate to `false`. -/

/-- `in` prop of the `MappingEditorToolbar` transition (line 332). -/
def mappingEditorToolbarIn (editingMapping : Bool)
    (mappingSlotBeingEdited : Option Int) : Bool :=
  editingMapping && jsLtZero mappingSlotBeingEdited

/-- `in` prop of the `MappingSlotEditorToolbar` transition (line 339). -/
def mappingSlotEditorToolbarIn (editingMapping : Bool)
    (mappingSlotBeingEdited : Option Int) : Bool :=
  editingMapping && jsGeZero mappingSlotBeingEdited

/-! ## Bucket-header selection (`onSelectSection`, lines 437–456)

The thunk extracts the bucket's non-nil ids with a `reduce`, then
dispatches `difference(selectedUAVIds, displayedIds)` when the bucket's
checkbox is checked and `union(selectedUAVIds, displayedIds)`
otherwise.  `difference` and `union` are the lodash functions. -/

/-- lodash `difference(a, b)`: the values of `a` not included in `b`,
in order, duplicates kept. -/
def lodashDifference (a b : List String) : List String :=
  a.filter (fun x => !(b.contains x))

/-- One step of lodash `union`'s de-duplication: append `x` unless it is
already present. -/
def uniqPush (acc : List String) (x : String) : List String :=
  if acc.contains x then acc else acc ++ [x]

/-- lodash `union(a, b)`: unique values of the concatenation, keeping
first occurrences in order. -/
def lodashUnion (a b : List String) : List String :=
  (a ++ b).foldl uniqPush []

/-- The `reduce` of `onSelectSection` (lines 444–450): collect the
non-nil first components of the bucket's entries, in order. -/
def displayedIdsOf (entries : List UAVListEntry) : List String :=
  entries.foldl
    (fun acc e => match e.uavId with
      | some u => acc ++ [u]
      | none => acc) []

/-- The new selection dispatched by `onSelectSection` (lines 451–454):
`checked` is the bucket's `selectionInfo.checked` flag. -/
def onSelectSection (selectedUAVIds : List String)
    (entries : List UAVListEntry) (checked : Bool) : List String :=
  let displayedIds := displayedIdsOf entries
  if checked then lodashDifference selectedUAVIds displayedIds
  else lodashUnion selectedUAVIds displayedIds

/-! ## Mission mapping store

The mapping is an ordered sequence of slots; `mapping[i]` is either the
UAV identifier occupying slot `i` or empty. -/

/-- A mission mapping: one optional UAV id per slot. -/
abbrev Mapping := List (Option String)

/-- Modelled from the spec: `adjustMissionMapping({ uavId, to: slotIndex })`
of `~/features/mission/slice` (the slice itself is outside the provided
source excerpt; only its dispatch site `onDropped` in `UAVList.jsx` is).
Per §4.2 it "moves `uavId` into `slotIndex`, vacating any slot it
previously occupied; if `slotIndex` was previously occupied by a
different UAV, that UAV becomes unmapped (spare)", as one atomic step:
every slot holding `uavId` is cleared and slot `slotIndex` is set to
`uavId`, in a single state transition. -/
def adjustMissionMapping (m : Mapping) (uavId : String) (toSlot : Nat) :
    Mapping :=
  (m.map (fun s => if s = some uavId then none else s)).set toSlot
    (some uavId)

/-- The UAV ids occurring in the mapping, in slot order. -/
def mappedIds (m : Mapping) : List String :=
  m.filterMap id

/-- Modelled from the spec: the `spareUAVIds` bucket of the
displayed-id-list selector (`getDisplayedIdList` of
`./selectors`, outside the provided source excerpt).  Per §4.3 step 2:
"every fleet UAV id not present in the mapping, in a stable order". -/
def spareUAVIds (fleet : List String) (m : Mapping) : List String :=
  fleet.filter (fun u => !((mappedIds m).contains u))

/-- Modelled from the spec: the `mainUAVIds` bucket of the
displayed-id-list selector.  Per §4.3 step 1: "for each slot index in
mapping order, emit a bucket entry `(uavId_or_undefined, slotIndex,
undefined)`"; an empty slot yields `(undefined, slotIndex, undefined)`. -/
def mainUAVIds (m : Mapping) : List UAVListEntry :=
  (List.range m.length).map
    (fun i => ⟨m.getD i none, some i, none, false⟩)

/-- Well-formedness of a mapping: no UAV id occupies two slots. -/
def MappingWF (m : Mapping) : Prop :=
  (mappedIds m).Nodup

instance : DecidablePred MappingWF := fun m =>
  inferInstanceAs (Decidable (mappedIds m).Nodup)

/-! ## `UAVFeature` (OpenLayers feature class)

The class keeps `_selected`, `_color` and `_heading` fields and a style
array rebuilt by `_setupStyle` from those fields.  The embedding records
the observable content of the style array — icon source path, icon and
selection-glow rotations, whether the selection glow is present, the
label text — plus an allocation generation `gen` standing for the
reference identity of the style objects: `_setupStyle` allocates fresh
objects (so `gen` increases) while the `heading` setter only mutates the
rotation of the existing `Icon`s in place (so `gen` is unchanged).

Headings are degrees; `_headingToRotation` computes
`((heading % 360) * Math.PI) / 180`.  JavaScript `%` truncates toward
zero, so `heading % 360` is `Int.tmod`; multiplying by `π / 180` is
injective, so the rotation is represented by `heading % 360` itself. -/

/-- `_headingToRotation` for an integral heading, represented by the
JavaScript remainder `heading % 360` (the factor `π / 180` is a fixed
injective scaling). -/
def headingToRotation (heading : Int) : Int :=
  heading.tmod 360

/-- Observable content of the style array built by `_setupStyle`. -/
structure UAVStyle where
  gen : Nat
  iconSrc : String
  iconRotation : Int
  selectionRotation : Int
  hasSelectionGlow : Bool
  labelText : String
  deriving DecidableEq, Repr

/-- The `UAVFeature` state: its fields and its current style. -/
structure UAVFeature where
  uavId : String
  selectedF : Bool
  colorF : String
  headingF : Int
  style : UAVStyle
  deriving DecidableEq, Repr

namespace UAVFeature

/-- `_setupStyle`: rebuild the style array from the current fields.
Fresh `Icon`, `Style` and `Text` objects are allocated, which `gen + 1`
records. -/
def setupStyle (f : UAVFeature) : UAVFeature :=
  { f with
    style :=
      { gen := f.style.gen + 1
        iconSrc :=
          String.append "assets/drone.x."
            (String.append f.colorF ".32x32.png")
        iconRotation := headingToRotation f.headingF
        selectionRotation := headingToRotation f.headingF
        hasSelectionGlow := f.selectedF
        labelText := if f.uavId.isEmpty then "undefined" else f.uavId } }

/-- The constructor: `_selected = false`, `_color = ''`, `_heading = 0`,
then `_setupStyle()`. -/
def mkFeature (uavId : String) : UAVFeature :=
  setupStyle
    { uavId := uavId, selectedF := false, colorF := "", headingF := 0
      style :=
        { gen := 0, iconSrc := "", iconRotation := 0, selectionRotation := 0
          hasSelectionGlow := false, labelText := "" } }

/-- The `heading` setter: early return when the value is unchanged;
otherwise store the value and rotate the existing icon and selection
images in place (after construction `_iconImage` is always set).  The
style objects are not rebuilt. -/
def setHeading (f : UAVFeature) (value : Int) : UAVFeature :=
  if f.headingF = value then f
  else
    { f with
      headingF := value
      style :=
        { f.style with
          iconRotation := headingToRotation value
          selectionRotation := headingToRotation value } }

/-- The `selected` setter: early return when unchanged, otherwise store
and `_setupStyle()`. -/
def setSelected (f : UAVFeature) (value : Bool) : UAVFeature :=
  if f.selectedF = value then f
  else setupStyle { f with selectedF := value }

/-- The `color` setter: early return when unchanged, otherwise store and
`_setupStyle()`. -/
def setColor (f : UAVFeature) (value : String) : UAVFeature :=
  if f.colorF = value then f
  else setupStyle { f with colorF := value }

end UAVFeature

/-! ## GeoJSON layer-settings import (`_handleClick`)

`GeoJSONLayerSettingsPresentation._handleClick` first sets the
`strokeWidth` layer parameter from the text field (unconditionally),
then tries `JSON.parse` on the data field: on success it sets the `data`
parameter and shows a success notification, on failure it shows an
error notification.  `JSON.parse` and lodash `toNumber` are
host-language built-ins and are taken as parameters; the parsed-JSON
type `J` is abstract. -/

/-- Notification semantics of `showNotification` messages. -/
inductive NotificationSemantics where
  | success
  | error
  deriving DecidableEq, Repr

/-- A user-facing notification: message text and semantics. -/
structure Notification where
  message : String
  semantics : NotificationSemantics
  deriving DecidableEq, Repr

/-- An RGBA color value as stored in layer parameters. -/
structure RGBA where
  r : Nat
  g : Nat
  b : Nat
  a : ℚ
  deriving DecidableEq, Repr

/-- The stored parameters of a GeoJSON layer that `_handleClick`
touches or must preserve. -/
structure GeoJSONParameters (J : Type) where
  data : J
  strokeColor : RGBA
  strokeWidth : Int
  fillColor : RGBA
  deriving DecidableEq, Repr

/-- The component state read by `_handleClick`: the stroke-width text
field and the GeoJSON data text field. -/
structure GeoJSONSettingsState where
  strokeWidth : String
  data : String
  deriving DecidableEq, Repr

/-- `_handleClick` (part_002, lines 304–323): set `strokeWidth` from the
field, then parse the data field; on success set `data` and notify
success, on failure notify error.  Returns the updated parameters and
the notifications shown. -/
def handleClick {J : Type} (parseJSON : String → Option J)
    (toNumber : String → Int) (st : GeoJSONSettingsState)
    (p : GeoJSONParameters J) :
    GeoJSONParameters J × List Notification :=
  let p1 := { p with strokeWidth := toNumber st.strokeWidth }
  match parseJSON st.data with
  | some parsedData =>
      ({ p1 with data := parsedData },
        [⟨"GeoJSON imported successfully.", NotificationSemantics.success⟩])
  | none =>
      (p1, [⟨"Invalid GeoJSON data.", NotificationSemantics.error⟩])

/-! ## Layer registry (`part_001`)

`LayerType` is a plain object whose values are strings; reading a key
it does not have yields `undefined`, which `layerTypeEnum` embeds as
`Option String`.  The source declares the key `UAVTrace: 'uavtrace'`
(line 28) but refers elsewhere to `LayerType.UAVTRACE` — a property the
object does NOT have: in the `LayerTypes` ordering constant (line 36)
and, crucially, as the computed key of the trail-properties entry of
`propertiesForLayerTypes_` (line 98).  A computed object key evaluates
`String(undefined) = "undefined"`, so the trail properties are
registered under the key `"undefined"` and no `'uavtrace'` key exists
in the table.  `defaultParametersForLayerType('uavtrace')` therefore
reads `props = undefined` and the call `props.hasOwnProperty(...)`
throws a TypeError; a fallible result (`none` = the thrown exception)
embeds this.  JavaScript numeric literals are represented as exact
rationals and the (React element) icons are omitted — only equality of
parameter objects matters to the claims. -/

/-- A value stored in a layer-parameter object.  The default parameter
templates only contain numbers, strings, booleans, RGBA colors, empty
objects, empty arrays and arrays of numbers, so those shapes suffice. -/
inductive ParamValue where
  | num (q : ℚ)
  | str (s : String)
  | boolV (b : Bool)
  | color (c : RGBA)
  | emptyObj
  | emptyList
  | numList (xs : List ℚ)
  deriving DecidableEq, Repr

/-- A layer-parameter object: ordered key/value fields. -/
abbrev LayerParameters := List (String × ParamValue)

/-- Property access on the `LayerType` enum object: each declared key
to its string value, every other key (including `UAVTRACE`, used by the
source but never declared — the declared key is `UAVTrace`) to
`undefined`. -/
def layerTypeEnum : String → Option String
  | "BASE" => some "base"
  | "GEOJSON" => some "geojson"
  | "HEATMAP" => some "heatmap"
  | "HEXGRID" => some "hexgrid"
  | "OWN_LOCATION" => some "ownlocation"
  | "UAVS" => some "uavs"
  | "UAVTrace" => some "uavtrace"
  | "UNTYPED" => some "untyped"
  | _ => none

/-- Conversion of a string-or-undefined value to a JavaScript property
key: `undefined` becomes the key `"undefined"`. -/
def jsPropertyKey : Option String → String
  | some s => s
  | none => "undefined"

/-- The properties of one layer type: its label and, when the
properties object has a `parameters` key, its default-parameter
template (icons are React elements and are outside the embedding). -/
structure LayerTypeProperties where
  label : String
  parameters : Option LayerParameters
  deriving DecidableEq, Repr

/-- `propertiesForLayerTypes_`: the table of per-type properties, with
each entry under its computed key exactly as the object literal builds
them.  The trail-properties entry uses the key
`[LayerType.UAVTRACE]` — `undefined`, since the enum's key is
`UAVTrace` — so it lands under the string key `"undefined"`. -/
def propertiesForLayerTypes_ : List (String × LayerTypeProperties) :=
  [(jsPropertyKey (layerTypeEnum "BASE"),
     ⟨"Base layer", some [("source", ParamValue.str "osm")]⟩),
   (jsPropertyKey (layerTypeEnum "GEOJSON"),
     ⟨"GeoJSON layer",
       some
         [("data", ParamValue.emptyObj),
          ("strokeColor", ParamValue.color ⟨85, 85, 225, 1⟩),
          ("strokeWidth", ParamValue.num 2),
          ("fillColor", ParamValue.color ⟨170, 170, 225, (1 : ℚ) / 2⟩)]⟩),
   (jsPropertyKey (layerTypeEnum "HEXGRID"),
     ⟨"HEX Grid layer",
       some
         [("center",
            ParamValue.numList
              [(19061951 : ℚ) / 1000000, (4747334 : ℚ) / 100000]),
          ("size", ParamValue.num 8),
          ("radius", ParamValue.num ((5 : ℚ) / 10000))]⟩),
   (jsPropertyKey (layerTypeEnum "HEATMAP"),
     ⟨"Heatmap",
       some
         [("subscriptions", ParamValue.emptyList),
          ("minHue", ParamValue.num 100),
          ("maxHue", ParamValue.num 0),
          ("minValue", ParamValue.num 0),
          ("maxValue", ParamValue.num 0),
          ("autoScale", ParamValue.boolV true),
          ("maxPoints", ParamValue.num 1000),
          ("unit", ParamValue.str "")]⟩),
   (jsPropertyKey (layerTypeEnum "OWN_LOCATION"),
     ⟨"Own location", none⟩),
   (jsPropertyKey (layerTypeEnum "UAVS"),
     ⟨"UAVs", some [("colorPredicates", ParamValue.emptyObj)]⟩),
   (jsPropertyKey (layerTypeEnum "UAVTRACE"),
     ⟨"UAV Trace",
       some
         [("trailLength", ParamValue.num 10),
          ("trailWidth", ParamValue.num 2),
          ("trailColor", ParamValue.color ⟨0, 0, 0, 1⟩)]⟩),
   (jsPropertyKey (layerTypeEnum "UNTYPED"),
     ⟨"Untyped layer", none⟩)]

/-- `LayerTypes` (line 35): the preferred UI ordering.  Its third entry
is the undeclared property `LayerType.UAVTRACE`, i.e. `undefined` —
the source contradicts its own enum declaration here. -/
def LayerTypes : List (Option String) :=
  [layerTypeEnum "BASE", layerTypeEnum "UAVS", layerTypeEnum "UAVTRACE",
   layerTypeEnum "OWN_LOCATION", layerTypeEnum "GEOJSON",
   layerTypeEnum "HEXGRID", layerTypeEnum "HEATMAP"]

/-- `propertiesForLayerTypes_[layerType]`: object property lookup
(`undefined` when the key is absent). -/
def propsForLayerType (layerType : String) : Option LayerTypeProperties :=
  (propertiesForLayerTypes_.find? (fun kv => kv.1 == layerType)).map
    Prod.snd

/-- `defaultParametersForLayerType`: looks up the properties object of
the type; when it exists, the `parameters` template (or `{}` when the
object has no `parameters` key — `_.cloneDeep` of a pure value is the
value itself); when it does not exist (`props` is `undefined`, as for
`'uavtrace'`), the call `props.hasOwnProperty('parameters')` throws a
TypeError, embedded as `none`. -/
def defaultParametersForLayerType (layerType : String) :
    Option LayerParameters :=
  match propsForLayerType layerType with
  | some props => some (props.parameters.getD [])
  | none => none

/-- A layer object as returned by `createNewLayer`; `type` is the layer
type's string value. -/
structure Layer where
  type : String
  label : String
  visible : Bool
  parameters : LayerParameters
  deriving DecidableEq, Repr

/-- `createNewLayer(layerType, name, parameters)`: a falsey `layerType`
(`undefined`/`null` embedded as `none`, or the empty string) becomes
`LayerType.UNTYPED = 'untyped'`; `visible` is
`effectiveLayerType !== LayerType.UNTYPED`; `parameters || default`
short-circuits, so the defaults — and the TypeError they can throw —
are only computed for falsey `parameters` (`none` = the exception
propagating out of `createNewLayer`). -/
def createNewLayer (layerType : Option String) (name : String)
    (parameters : Option LayerParameters) : Option Layer :=
  let effectiveLayerType :=
    match layerType with
    | some s => if s.isEmpty then "untyped" else s
    | none => "untyped"
  match parameters with
  | some p =>
      some
        { type := effectiveLayerType, label := name
          visible := effectiveLayerType ≠ "untyped", parameters := p }
  | none =>
      (defaultParametersForLayerType effectiveLayerType).map fun d =>
        { type := effectiveLayerType, label := name
          visible := effectiveLayerType ≠ "untyped", parameters := d }

/-! ## Accessors used by the theorems -/

/-- Whether a grid item rendered as a `DronePlaceholder`. -/
def GridItem.isPlaceholder : GridItem → Bool
  | GridItem.placeholder _ _ _ _ _ => true
  | GridItem.avatar _ _ _ _ _ => false

/-- The `status` prop of a rendered placeholder (`none` for avatars). -/
def GridItem.statusProp : GridItem → Option String
  | GridItem.placeholder status _ _ _ _ => some status
  | GridItem.avatar _ _ _ _ _ => none

/-- The `id` prop of a rendered avatar (`none` for placeholders). -/
def GridItem.avatarId : GridItem → Option String
  | GridItem.placeholder _ _ _ _ _ => none
  | GridItem.avatar uavId _ _ _ _ => some uavId

/-- The `fill` prop of a rendered grid item. -/
def GridItem.fillProp : GridItem → Bool
  | GridItem.placeholder _ _ fill _ _ => fill
  | GridItem.avatar _ _ fill _ _ => fill

/-! # Lemmas -/

lemma jsOrStr_of_not_truthy (a b : Option String)
    (h : jsTruthyStr a = false) : jsOrStr a b = b := by
  simp [jsOrStr, h]

lemma jsOrStr_of_truthy (a b : Option String)
    (h : jsTruthyStr a = true) : jsOrStr a b = a := by
  simp [jsOrStr, h]

/-! # Claim C1 — label derivation in the two item builders -/

/-- Claim C1, refuted at a concrete input: for the entry
`[uavId = "A", missionIndex = 0, no proposed label]`, with mission-ID
display enabled and mapping editing active, the grid builder labels the
item with the raw UAV id `"A"` while the list builder still labels it
with the formatted mission id — the two builders do not share one label
rule, and edit mode does not make the list label the raw UAV id. -/
theorem C1_counterexample :
    gridItemLabel fmtMissionIdSample true true
        ⟨some "A", some 0, none, false⟩ = some "A" ∧
    listItemLabel fmtMissionIdSample true
        ⟨some "A", some 0, none, false⟩ = some "s1" ∧
    (some "s1" : Option String) ≠ some "A" := by
  refine ⟨rfl, rfl, by decide⟩

/-- Claim C1 as amended: a truthy proposed label wins in both builders;
with mission-ID display disabled both show the UAV id unconditionally;
with mission-ID display enabled the GRID builder shows the formatted
mission id exactly when the item has a slot index and (edit mode is off
OR the item's UAV id is empty) — so edit mode turns an occupied slot's
grid label into the raw UAV id while an empty slot keeps its mission-id
label — whereas the LIST builder ignores edit mode and shows the
formatted mission id whenever a slot index is present. -/
theorem C1_amended (fmt : Nat → String) (u : String) (i : Nat)
    (pl : Option String) (mk : Bool) (hpl : jsTruthyStr pl = false) :
    (gridItemLabel fmt true true ⟨some u, some i, pl, mk⟩ = some u ∧
     listItemLabel fmt true ⟨some u, some i, pl, mk⟩ = some (fmt i)) ∧
    (gridItemLabel fmt true false ⟨some u, some i, pl, mk⟩
        = some (fmt i) ∧
     listItemLabel fmt true ⟨some u, some i, pl, mk⟩ = some (fmt i)) ∧
    (gridItemLabel fmt true true ⟨none, some i, pl, mk⟩ = some (fmt i) ∧
     listItemLabel fmt true ⟨none, some i, pl, mk⟩ = some (fmt i)) ∧
    (∀ uid : Option String, ∀ mi : Option Nat, ∀ e : Bool,
      gridItemLabel fmt false e ⟨uid, mi, pl, mk⟩ = uid ∧
      listItemLabel fmt false ⟨uid, mi, pl, mk⟩ = uid) ∧
    (∀ item : UAVListEntry, jsTruthyStr item.proposedLabel = true →
      ∀ s e : Bool,
        gridItemLabel fmt s e item = item.proposedLabel ∧
        listItemLabel fmt s item = item.proposedLabel) := by
  have hno : ∀ b, jsOrStr pl b = b := fun b => jsOrStr_of_not_truthy _ _ hpl
  refine ⟨⟨?_, ?_⟩, ⟨?_, ?_⟩, ⟨?_, ?_⟩, ?_, ?_⟩
  · simp [gridItemLabel, hno]
  · simp [listItemLabel, hno]
  · simp [gridItemLabel, hno]
  · simp [listItemLabel, hno]
  · simp [gridItemLabel, hno]
  · simp [listItemLabel, hno]
  · intro uid mi e
    cases mi <;> simp [gridItemLabel, listItemLabel, hno]
  · intro item ht s e
    constructor <;>
      simp [gridItemLabel, listItemLabel, jsOrStr_of_truthy _ _ ht]

/-- Witness for `C1_amended` at a concrete input. -/
theorem C1_amended_witness :
    gridItemLabel fmtMissionIdSample true true
        ⟨some "A", some 0, none, false⟩ = some "A" ∧
    listItemLabel fmtMissionIdSample true
        ⟨some "A", some 0, none, false⟩ = some (fmtMissionIdSample 0) :=
  (C1_amended fmtMissionIdSample "A" 0 none false rfl).1

/-! # Claim C2 — bucket-header selection toggling -/

lemma mem_uniqPush (acc : List String) (x u : String) :
    u ∈ uniqPush acc x ↔ u ∈ acc ∨ u = x := by
  unfold uniqPush
  split
  · rename_i h
    constructor
    · exact Or.inl
    · rintro (hu | rfl)
      · exact hu
      · simpa using h
  · simp

lemma mem_foldl_uniqPush (l acc : List String) (u : String) :
    u ∈ l.foldl uniqPush acc ↔ u ∈ acc ∨ u ∈ l := by
  induction l generalizing acc with
  | nil => simp
  | cons x xs ih =>
      rw [List.foldl_cons, ih, mem_uniqPush]
      simp [or_assoc]

lemma mem_lodashUnion (a b : List String) (u : String) :
    u ∈ lodashUnion a b ↔ u ∈ a ∨ u ∈ b := by
  rw [lodashUnion, mem_foldl_uniqPush]
  simp

lemma mem_lodashDifference (a b : List String) (u : String) :
    u ∈ lodashDifference a b ↔ u ∈ a ∧ u ∉ b := by
  simp [lodashDifference]

lemma mem_displayedIdsOf_aux (entries : List UAVListEntry)
    (acc : List String) (u : String) :
    u ∈ entries.foldl
        (fun acc e => match e.uavId with
          | some v => acc ++ [v]
          | none => acc) acc ↔
      u ∈ acc ∨ ∃ e ∈ entries, e.uavId = some u := by
  induction entries generalizing acc with
  | nil => simp
  | cons x xs ih =>
      rw [List.foldl_cons]
      cases hx : x.uavId with
      | none =>
          rw [ih]
          simp [hx]
      | some v =>
          rw [ih]
          constructor
          · rintro (hu | he)
            · rcases List.mem_append.mp hu with hu | hu
              · exact Or.inl hu
              · refine Or.inr ⟨x, List.mem_cons_self x xs, ?_⟩
                simp at hu
                rw [hx, hu]
            · rcases he with ⟨e, he, heq⟩
              exact Or.inr ⟨e, List.mem_cons_of_mem x he, heq⟩
          · rintro (hu | ⟨e, he, heq⟩)
            · exact Or.inl (List.mem_append.mpr (Or.inl hu))
            · rcases List.mem_cons.mp he with rfl | he
              · rw [hx] at heq
                simp only [Option.some.injEq] at heq
                subst heq
                exact Or.inl (List.mem_append.mpr (Or.inr (by simp)))
              · exact Or.inr ⟨e, he, heq⟩

lemma mem_displayedIdsOf (entries : List UAVListEntry) (u : String) :
    u ∈ displayedIdsOf entries ↔ ∃ e ∈ entries, e.uavId = some u := by
  rw [displayedIdsOf, mem_displayedIdsOf_aux]
  simp

/-- Claim C2: the bucket-header select action produces a new selection
computed from the bucket's real (non-nil) ids — the previous selection
minus those ids when the bucket's checkbox is fully checked, the union
with them otherwise, and no other id enters or leaves the selection. -/
theorem C2_section_toggle (selectedUAVIds : List String)
    (entries : List UAVListEntry) (checked : Bool) (u : String) :
    u ∈ onSelectSection selectedUAVIds entries checked ↔
      (if checked then
        u ∈ selectedUAVIds ∧ ¬ ∃ e ∈ entries, e.uavId = some u
       else
        u ∈ selectedUAVIds ∨ ∃ e ∈ entries, e.uavId = some u) := by
  cases checked with
  | false =>
      simp only [onSelectSection, Bool.false_eq_true, if_false]
      rw [mem_lodashUnion, mem_displayedIdsOf]
  | true =>
      simp only [onSelectSection, if_true]
      rw [mem_lodashDifference, mem_displayedIdsOf]

/-! # Claims C3 and C4 — the mission-mapping adjustment -/

lemma mem_of_getD_some (t : Mapping) (j : Nat) (x : String)
    (h : t.getD j none = some x) : some x ∈ t := by
  by_cases hj : j < t.length
  · rw [List.getD_eq_getElem?_getD, List.getElem?_eq_getElem hj] at h
    simp only [Option.getD_some] at h
    rw [← h]
    exact List.getElem_mem hj
  · rw [List.getD_eq_getElem?_getD, List.getElem?_eq_none (by omega)] at h
    simp at h

lemma mem_mappedIds (m : Mapping) (x : String) :
    x ∈ mappedIds m ↔ some x ∈ m := by
  simp [mappedIds]

/-- In a well-formed mapping, a UAV id read from one slot cannot also be
read from a different slot. -/
lemma MappingWF.getD_unique (m : Mapping) (h : MappingWF m) :
    ∀ i j : Nat, i ≠ j → ∀ x : String,
      m.getD i none = some x → m.getD j none ≠ some x := by
  induction m with
  | nil =>
      intro i j _ x hx
      simp [List.getD] at hx
  | cons a t ih =>
      intro i j hij x hx hx2
      match i, j with
      | 0, 0 => exact hij rfl
      | 0, jj + 1 =>
          rw [List.getD_cons_zero] at hx
          rw [List.getD_cons_succ] at hx2
          subst hx
          have hmem : x ∈ mappedIds t :=
            (mem_mappedIds t x).mpr (mem_of_getD_some t jj x hx2)
          have : ¬ x ∈ mappedIds t := by
            have := h
            simp only [MappingWF, mappedIds, List.filterMap_cons, id] at this
            rw [List.nodup_cons] at this
            exact this.1
          exact this hmem
      | ii + 1, 0 =>
          rw [List.getD_cons_zero] at hx2
          rw [List.getD_cons_succ] at hx
          subst hx2
          have hmem : x ∈ mappedIds t :=
            (mem_mappedIds t x).mpr (mem_of_getD_some t ii x hx)
          have : ¬ x ∈ mappedIds t := by
            have := h
            simp only [MappingWF, mappedIds, List.filterMap_cons, id] at this
            rw [List.nodup_cons] at this
            exact this.1
          exact this hmem
      | ii + 1, jj + 1 =>
          rw [List.getD_cons_succ] at hx hx2
          have htwf : MappingWF t := by
            have := h
            simp only [MappingWF, mappedIds] at this ⊢
            cases ha : id a with
            | none => rw [List.filterMap_cons, ha] at this; exact this
            | some y =>
                rw [List.filterMap_cons, ha] at this
                exact (List.nodup_cons.mp this).2
          exact ih htwf ii jj (by omega) x hx hx2

/-- Claim C3: `adjustMissionMapping({uavId, to})` on a well-formed
mapping puts `uavId` into the target slot, vacates every other slot
that held `uavId`, makes the displaced previous occupant `b` a spare,
and removes `uavId` from the spares — all in one state transition (the
embedding is a single pure function, so no intermediate state exists). -/
theorem C3_adjust_mission_mapping (fleet : List String) (m : Mapping)
    (u b : String) (t : Nat) (hwf : MappingWF m) (ht : t < m.length)
    (hb : m.getD t none = some b) (hne : b ≠ u) (hbf : b ∈ fleet) :
    (adjustMissionMapping m u t).getD t none = some u ∧
    (∀ i, i ≠ t → (adjustMissionMapping m u t).getD i none ≠ some u) ∧
    b ∈ spareUAVIds fleet (adjustMissionMapping m u t) ∧
    u ∉ spareUAVIds fleet (adjustMissionMapping m u t) := by
  set clear : Option String → Option String :=
    fun s => if s = some u then none else s with hclear
  have hadj : adjustMissionMapping m u t = (m.map clear).set t (some u) := rfl
  have hlen : (m.map clear).length = m.length := List.length_map m clear
  have hslot : (adjustMissionMapping m u t).getD t none = some u := by
    rw [hadj, List.getD_eq_getElem?_getD,
      List.getElem?_set_self (by rw [hlen]; exact ht)]
    rfl
  have hclear_ne : ∀ s : Option String, clear s ≠ some u := by
    intro s
    rw [hclear]
    by_cases hs : s = some u <;> simp [hs]
  have hclear_some : ∀ s : Option String, ∀ x : String,
      clear s = some x → s = some x := by
    intro s x hs
    rw [hclear] at hs
    by_cases h : s = some u
    · simp [h] at hs
    · simpa [h] using hs
  have hvacate : ∀ i, i ≠ t →
      (adjustMissionMapping m u t).getD i none ≠ some u := by
    intro i hit
    rw [hadj, List.getD_eq_getElem?_getD, List.getElem?_set_ne (by omega),
      List.getElem?_map]
    cases hmi : m[i]? with
    | none => simp
    | some s => simpa using hclear_ne s
  have humapped : some u ∈ (m.map clear).set t (some u) := by
    have h0 : ((m.map clear).set t (some u))[t]? = some (some u) :=
      List.getElem?_set_self (by rw [hlen]; exact ht)
    exact List.mem_iff_getElem?.mpr ⟨t, h0⟩
  have hbnot : some b ∉ (m.map clear).set t (some u) := by
    intro hmem
    rcases List.mem_iff_getElem?.mp hmem with ⟨i, hi⟩
    by_cases hit : i = t
    · subst hit
      rw [List.getElem?_set_self (by rw [hlen]; exact ht)] at hi
      exact hne (by simpa using hi.symm)
    · rw [List.getElem?_set_ne (by omega), List.getElem?_map] at hi
      cases hmi : m[i]? with
      | none => simp [hmi] at hi
      | some s =>
          rw [hmi] at hi
          have hs : s = some b := hclear_some s b (by simpa using hi)
          subst hs
          have hgd : m.getD i none = some b := by
            rw [List.getD_eq_getElem?_getD, hmi]
            rfl
          exact MappingWF.getD_unique m hwf i t hit b hgd hb
  refine ⟨hslot, hvacate, ?_, ?_⟩
  · rw [spareUAVIds, List.mem_filter]
    refine ⟨hbf, ?_⟩
    have hnotb : b ∉ mappedIds (adjustMissionMapping m u t) := by
      rw [mem_mappedIds]
      exact hbnot
    simp [hnotb]
  · intro hmem
    rw [spareUAVIds, List.mem_filter] at hmem
    have h2 := hmem.2
    have hu : u ∈ mappedIds (adjustMissionMapping m u t) :=
      (mem_mappedIds _ u).mpr humapped
    simp [hu] at h2

/-- Witness for `C3_adjust_mission_mapping` at a concrete input:
fleet `{A, B}`, mapping `[B]`; moving `A` into slot 0 displaces `B`. -/
theorem C3_adjust_mission_mapping_witness :
    MappingWF [some "B"] ∧
    ((adjustMissionMapping [some "B"] "A" 0).getD 0 none = some "A" ∧
     (∀ i, i ≠ 0 →
       (adjustMissionMapping [some "B"] "A" 0).getD i none ≠ some "A") ∧
     "B" ∈ spareUAVIds ["A", "B"] (adjustMissionMapping [some "B"] "A" 0) ∧
     "A" ∉ spareUAVIds ["A", "B"] (adjustMissionMapping [some "B"] "A" 0)) :=
  ⟨by decide,
    C3_adjust_mission_mapping ["A", "B"] [some "B"] "A" "B" 0 (by decide)
      (by decide) (by decide) (by decide) (by decide)⟩

/-- Clearing every occurrence of one id keeps the mapped-id list a
sublist of the original. -/
lemma mappedIds_clear_sublist (m : Mapping) (u : String) :
    List.Sublist
      (mappedIds (m.map (fun s => if s = some u then none else s)))
      (mappedIds m) := by
  induction m with
  | nil => simp [mappedIds]
  | cons a t ih =>
      by_cases ha : a = some u
      · subst ha
        simp only [mappedIds, List.map_cons, if_pos rfl,
          List.filterMap_cons, id] at ih ⊢
        exact List.Sublist.cons u ih
      · cases a with
        | none =>
            simp only [mappedIds, List.map_cons, if_neg ha,
              List.filterMap_cons, id] at ih ⊢
            exact ih
        | some y =>
            simp only [mappedIds, List.map_cons, if_neg ha,
              List.filterMap_cons, id] at ih ⊢
            exact List.Sublist.cons₂ y ih

/-- After clearing, the cleared id is mapped nowhere. -/
lemma not_mem_mappedIds_clear (m : Mapping) (u : String) :
    u ∉ mappedIds (m.map (fun s => if s = some u then none else s)) := by
  intro hmem
  rw [mem_mappedIds] at hmem
  rcases List.mem_map.mp hmem with ⟨s, _, hs⟩
  by_cases h : s = some u <;> simp [h] at hs

/-- Setting a slot to an id that is mapped nowhere keeps the mapping
well-formed. -/
lemma MappingWF.set_some (l : Mapping) (u : String) (t : Nat)
    (h : MappingWF l) (hu : u ∉ mappedIds l) :
    MappingWF (l.set t (some u)) := by
  induction l generalizing t with
  | nil => simpa using h
  | cons a xs ih =>
      cases t with
      | zero =>
          simp only [List.set_cons_zero]
          have hxs : MappingWF xs := by
            simp only [MappingWF, mappedIds, List.filterMap_cons, id] at h ⊢
            cases a with
            | none => exact h
            | some y => exact (List.nodup_cons.mp h).2
          have hux : u ∉ mappedIds xs := by
            intro hx
            apply hu
            simp only [mappedIds, List.filterMap_cons, id]
            cases a with
            | none => exact hx
            | some y => exact List.mem_cons_of_mem y hx
          simp only [MappingWF, mappedIds, List.filterMap_cons, id,
            List.nodup_cons]
          exact ⟨hux, hxs⟩
      | succ tt =>
          simp only [List.set_cons_succ]
          simp only [MappingWF, mappedIds, List.filterMap_cons, id] at h ⊢
          cases a with
          | none =>
              apply ih _ h
              intro hx
              apply hu
              simp only [mappedIds, List.filterMap_cons, id]
              exact hx
          | some y =>
              rw [List.nodup_cons] at h ⊢
              have hy : y ∉ mappedIds (xs.set tt (some u)) := by
                intro hx
                rw [mem_mappedIds] at hx
                rcases List.mem_or_eq_of_mem_set hx with hx | hx
                · exact h.1 ((mem_mappedIds xs y).mpr hx)
                · apply hu
                  simp only [mappedIds, List.filterMap_cons, id]
                  simp only [Option.some.injEq] at hx
                  exact hx ▸ List.mem_cons_self y _
              refine ⟨hy, ?_⟩
              apply ih _ h.2
              intro hx
              apply hu
              simp only [mappedIds, List.filterMap_cons, id]
              exact List.mem_cons_of_mem y hx

/-- One `adjustMissionMapping` step preserves well-formedness. -/
lemma MappingWF.adjust (m : Mapping) (u : String) (t : Nat)
    (h : MappingWF m) : MappingWF (adjustMissionMapping m u t) :=
  MappingWF.set_some _ u t
    ((mappedIds_clear_sublist m u).nodup h)
    (not_mem_mappedIds_clear m u)

/-- Claim C4: starting from a well-formed mapping, after any finite
sequence of `adjustMissionMapping` calls every UAV identifier still
appears in at most one mission slot. -/
theorem C4_mapping_invariant (ops : List (String × Nat)) (m : Mapping)
    (h : MappingWF m) :
    MappingWF
      (ops.foldl (fun acc op => adjustMissionMapping acc op.1 op.2) m) := by
  induction ops generalizing m with
  | nil => simpa using h
  | cons op rest ih =>
      rw [List.foldl_cons]
      exact ih _ (MappingWF.adjust m op.1 op.2 h)

/-- Witness for `C4_mapping_invariant` at a concrete input: a swap-like
sequence of three moves on a two-slot mapping. -/
theorem C4_mapping_invariant_witness :
    MappingWF [some "A", some "B"] ∧
    MappingWF
      ([("A", 1), ("B", 0), ("A", 0)].foldl
        (fun acc op => adjustMissionMapping acc op.1 op.2)
        [some "A", some "B"]) :=
  ⟨by decide,
    C4_mapping_invariant [("A", 1), ("B", 0), ("A", 0)]
      [some "A", some "B"] (by decide)⟩

/-! # Claim C5 — the displayed-id buckets -/

/-- Claim C5, refuted at a concrete input: for the (malformed but
tolerated, §7) state with an empty fleet and the one-slot mapping
`["X"]`, the spare ids together with the mapped ids contain `"X"`,
which is not in the fleet — they do not partition the known fleet for
every fleet/mapping state. -/
theorem C5_counterexample :
    ¬ (∀ v : String,
        (v ∈ spareUAVIds [] [some "X"] ∨ v ∈ mappedIds [some "X"]) ↔
          v ∈ ([] : List String)) := by
  intro h
  have hx : "X" ∈ ([] : List String) :=
    (h "X").mp (Or.inr (by decide))
  simp at hx

/-- Claim C5 as amended: for every state in which each mapped id belongs
to the fleet, `mainUAVIds` has exactly one entry per mapping slot — its
length is the slot count, slot `i`'s entry is
`(mapping[i], i, undefined)`, so an empty slot yields the
`(undefined, i, undefined)` placeholder — and the spare ids together
with the mapped ids exactly partition the known fleet (their union is
the fleet and they are disjoint). -/
theorem C5_amended (fleet : List String) (m : Mapping)
    (hsub : ∀ u, u ∈ mappedIds m → u ∈ fleet) :
    (mainUAVIds m).length = m.length ∧
    (∀ i, i < m.length →
      (mainUAVIds m)[i]? = some ⟨m.getD i none, some i, none, false⟩) ∧
    (∀ v, (v ∈ spareUAVIds fleet m ∨ v ∈ mappedIds m) ↔ v ∈ fleet) ∧
    (∀ v, v ∈ spareUAVIds fleet m → v ∉ mappedIds m) := by
  refine ⟨?_, ?_, ?_, ?_⟩
  · simp [mainUAVIds]
  · intro i hi
    rw [mainUAVIds, List.getElem?_map, List.getElem?_range hi]
    rfl
  · intro v
    constructor
    · rintro (hv | hv)
      · exact (List.mem_filter.mp hv).1
      · exact hsub v hv
    · intro hv
      by_cases hm : v ∈ mappedIds m
      · exact Or.inr hm
      · refine Or.inl (List.mem_filter.mpr ⟨hv, ?_⟩)
        simp [hm]
  · intro v hv
    have h2 := (List.mem_filter.mp hv).2
    simp only [Bool.not_eq_eq_eq_not, Bool.not_true] at h2
    intro hm
    simp [hm] at h2

/-- Witness for `C5_amended` at a concrete input: fleet `{A, B, C}`,
mapping `[A, empty]` (the spec's §8 scenario). -/
theorem C5_amended_witness :
    (∀ u, u ∈ mappedIds [some "A", none] → u ∈ ["A", "B", "C"]) ∧
    ((mainUAVIds [some "A", none]).length = 2 ∧
     (∀ i, i < ([some "A", none] : Mapping).length →
       (mainUAVIds [some "A", none])[i]? =
         some ⟨([some "A", none] : Mapping).getD i none, some i, none,
           false⟩) ∧
     (∀ v, (v ∈ spareUAVIds ["A", "B", "C"] [some "A", none] ∨
         v ∈ mappedIds [some "A", none]) ↔ v ∈ ["A", "B", "C"]) ∧
     (∀ v, v ∈ spareUAVIds ["A", "B", "C"] [some "A", none] →
       v ∉ mappedIds [some "A", none])) :=
  ⟨by decide, C5_amended ["A", "B", "C"] [some "A", none] (by decide)⟩

/-! # Claim C6 — undefined vs negative edit cursor -/

/-- Claim C6, refuted at a concrete input: with mapping editing active,
an undefined cursor leaves the mapping-editor toolbar hidden
(`undefined < 0` is `false` in JavaScript) while a negative cursor
shows it — the two sentinel values are not interchangeable for the
presentation. -/
theorem C6_counterexample :
    mappingEditorToolbarIn true none = false ∧
    mappingEditorToolbarIn true (some (-1)) = true := by
  decide

/-- Claim C6 as amended: with mapping editing active, an undefined
cursor and a negative cursor both hide the per-slot editor toolbar and
mark no displayed item as the slot being edited, but only the negative
cursor shows the mapping-editor toolbar — with an undefined cursor
neither toolbar is shown. -/
theorem C6_amended (c : Int) (hc : c < 0) :
    (mappingEditorToolbarIn true none = false ∧
     mappingSlotEditorToolbarIn true none = false ∧
     (∀ mi : Option Nat, editingThisItem none mi = false)) ∧
    (mappingEditorToolbarIn true (some c) = true ∧
     mappingSlotEditorToolbarIn true (some c) = false ∧
     (∀ mi : Option Nat, editingThisItem (some c) mi = false)) := by
  refine ⟨⟨rfl, rfl, fun mi => rfl⟩, ?_, ?_, ?_⟩
  · simp [mappingEditorToolbarIn, jsLtZero, hc]
  · simp only [mappingSlotEditorToolbarIn, jsGeZero, Bool.true_and,
      decide_eq_false_iff_not]
    omega
  · intro mi
    cases mi with
    | none => rfl
    | some i =>
        simp only [editingThisItem, decide_eq_false_iff_not]
        omega

/-- Witness for `C6_amended` at the concrete cursor value `-1`. -/
theorem C6_amended_witness :
    (-1 : Int) < 0 ∧
    ((mappingEditorToolbarIn true none = false ∧
      mappingSlotEditorToolbarIn true none = false ∧
      (∀ mi : Option Nat, editingThisItem none mi = false)) ∧
     (mappingEditorToolbarIn true (some (-1)) = true ∧
      mappingSlotEditorToolbarIn true (some (-1)) = false ∧
      (∀ mi : Option Nat, editingThisItem (some (-1)) mi = false))) :=
  ⟨by decide, C6_amended (-1) (by decide)⟩

/-! # Claim C7 — GeoJSON import error handling -/

/-- Claim C7, refuted at a concrete input: when JSON parsing of the
entered text fails, `_handleClick` is not a no-op on the stored layer
parameters — it has already set the `strokeWidth` parameter from the
stroke-width field (here `2` becomes `5`) before attempting the parse.
The error notification is shown as claimed. -/
theorem C7_counterexample :
    (fun _ : String => (none : Option Nat)) "not json" = none ∧
    (handleClick (fun _ : String => (none : Option Nat)) (fun _ => 5)
        ⟨"5", "not json"⟩
        ⟨0, ⟨85, 85, 225, 1⟩, 2, ⟨170, 170, 225, (1 : ℚ) / 2⟩⟩).1.strokeWidth
      = 5 ∧
    (5 : Int) ≠ 2 ∧
    (handleClick (fun _ : String => (none : Option Nat)) (fun _ => 5)
        ⟨"5", "not json"⟩
        ⟨0, ⟨85, 85, 225, 1⟩, 2, ⟨170, 170, 225, (1 : ℚ) / 2⟩⟩).2
      = [⟨"Invalid GeoJSON data.", NotificationSemantics.error⟩] := by
  refine ⟨rfl, rfl, by decide, rfl⟩

/-- Claim C7 as amended: on a parse failure `_handleClick` shows the
error notification, discards the invalid text (the `data` parameter and
the color parameters are unchanged), but the `strokeWidth` parameter is
always set from the stroke-width field before parsing; on a parse
success the `data` parameter is set to the parsed value and the success
notification is shown. -/
theorem C7_amended {J : Type} (parseJSON : String → Option J)
    (toNumber : String → Int) (st : GeoJSONSettingsState)
    (p : GeoJSONParameters J) :
    (parseJSON st.data = none →
      (handleClick parseJSON toNumber st p).1.data = p.data ∧
      (handleClick parseJSON toNumber st p).1.strokeColor = p.strokeColor ∧
      (handleClick parseJSON toNumber st p).1.fillColor = p.fillColor ∧
      (handleClick parseJSON toNumber st p).1.strokeWidth
        = toNumber st.strokeWidth ∧
      (handleClick parseJSON toNumber st p).2
        = [⟨"Invalid GeoJSON data.", NotificationSemantics.error⟩]) ∧
    (∀ v, parseJSON st.data = some v →
      (handleClick parseJSON toNumber st p).1.data = v ∧
      (handleClick parseJSON toNumber st p).1.strokeColor = p.strokeColor ∧
      (handleClick parseJSON toNumber st p).1.fillColor = p.fillColor ∧
      (handleClick parseJSON toNumber st p).1.strokeWidth
        = toNumber st.strokeWidth ∧
      (handleClick parseJSON toNumber st p).2
        = [⟨"GeoJSON imported successfully.",
            NotificationSemantics.success⟩]) := by
  constructor
  · intro hfail
    simp [handleClick, hfail]
  · intro v hok
    simp [handleClick, hok]

/-- Witness for `C7_amended` at a concrete input (a failing parse). -/
theorem C7_amended_witness :
    (handleClick (fun _ : String => (none : Option Nat)) (fun _ => 5)
        ⟨"5", "not json"⟩
        ⟨0, ⟨85, 85, 225, 1⟩, 2, ⟨170, 170, 225, (1 : ℚ) / 2⟩⟩).1.data = 0 ∧
    (handleClick (fun _ : String => (none : Option Nat)) (fun _ => 5)
        ⟨"5", "not json"⟩
        ⟨0, ⟨85, 85, 225, 1⟩, 2,
          ⟨170, 170, 225, (1 : ℚ) / 2⟩⟩).1.strokeColor = ⟨85, 85, 225, 1⟩ ∧
    (handleClick (fun _ : String => (none : Option Nat)) (fun _ => 5)
        ⟨"5", "not json"⟩
        ⟨0, ⟨85, 85, 225, 1⟩, 2,
          ⟨170, 170, 225, (1 : ℚ) / 2⟩⟩).1.fillColor
      = ⟨170, 170, 225, (1 : ℚ) / 2⟩ ∧
    (handleClick (fun _ : String => (none : Option Nat)) (fun _ => 5)
        ⟨"5", "not json"⟩
        ⟨0, ⟨85, 85, 225, 1⟩, 2,
          ⟨170, 170, 225, (1 : ℚ) / 2⟩⟩).1.strokeWidth = 5 ∧
    (handleClick (fun _ : String => (none : Option Nat)) (fun _ => 5)
        ⟨"5", "not json"⟩
        ⟨0, ⟨85, 85, 225, 1⟩, 2, ⟨170, 170, 225, (1 : ℚ) / 2⟩⟩).2
      = [⟨"Invalid GeoJSON data.", NotificationSemantics.error⟩] :=
  (C7_amended (fun _ : String => (none : Option Nat)) (fun _ => 5)
      ⟨"5", "not json"⟩
      ⟨0, ⟨85, 85, 225, 1⟩, 2, ⟨170, 170, 225, (1 : ℚ) / 2⟩⟩).1 rfl

/-! # Claim C8 — `UAVFeature` property setters -/

/-- Claim C8: assigning the current value to `heading`, `selected` or
`color` leaves the `UAVFeature` completely unchanged (the early return
fires: no field changes, no style object is rebuilt — the style
generation is untouched — and no rotation is reapplied), while
assigning a different value changes only the targeted field and the
derived style: the `heading` setter keeps every other field and every
other style component (including the generation, since the icons are
rotated in place rather than rebuilt) and only updates the two
rotations; the `selected` and `color` setters keep the other fields and
rebuild the style (fresh generation) from the updated fields. -/
theorem C8_setters (f : UAVFeature) (h : Int) (b : Bool) (c : String) :
    (UAVFeature.setHeading f f.headingF = f ∧
     UAVFeature.setSelected f f.selectedF = f ∧
     UAVFeature.setColor f f.colorF = f) ∧
    (f.headingF ≠ h →
      (UAVFeature.setHeading f h).uavId = f.uavId ∧
      (UAVFeature.setHeading f h).selectedF = f.selectedF ∧
      (UAVFeature.setHeading f h).colorF = f.colorF ∧
      (UAVFeature.setHeading f h).headingF = h ∧
      (UAVFeature.setHeading f h).style.gen = f.style.gen ∧
      (UAVFeature.setHeading f h).style.iconSrc = f.style.iconSrc ∧
      (UAVFeature.setHeading f h).style.hasSelectionGlow
        = f.style.hasSelectionGlow ∧
      (UAVFeature.setHeading f h).style.labelText = f.style.labelText ∧
      (UAVFeature.setHeading f h).style.iconRotation
        = headingToRotation h ∧
      (UAVFeature.setHeading f h).style.selectionRotation
        = headingToRotation h) ∧
    (f.selectedF ≠ b →
      (UAVFeature.setSelected f b).uavId = f.uavId ∧
      (UAVFeature.setSelected f b).colorF = f.colorF ∧
      (UAVFeature.setSelected f b).headingF = f.headingF ∧
      (UAVFeature.setSelected f b).selectedF = b ∧
      (UAVFeature.setSelected f b).style.gen = f.style.gen + 1 ∧
      (UAVFeature.setSelected f b).style.hasSelectionGlow = b ∧
      (UAVFeature.setSelected f b).style.iconSrc
        = String.append "assets/drone.x."
            (String.append f.colorF ".32x32.png") ∧
      (UAVFeature.setSelected f b).style.iconRotation
        = headingToRotation f.headingF ∧
      (UAVFeature.setSelected f b).style.selectionRotation
        = headingToRotation f.headingF ∧
      (UAVFeature.setSelected f b).style.labelText
        = (if f.uavId.isEmpty then "undefined" else f.uavId)) ∧
    (f.colorF ≠ c →
      (UAVFeature.setColor f c).uavId = f.uavId ∧
      (UAVFeature.setColor f c).selectedF = f.selectedF ∧
      (UAVFeature.setColor f c).headingF = f.headingF ∧
      (UAVFeature.setColor f c).colorF = c ∧
      (UAVFeature.setColor f c).style.gen = f.style.gen + 1 ∧
      (UAVFeature.setColor f c).style.hasSelectionGlow = f.selectedF ∧
      (UAVFeature.setColor f c).style.iconSrc
        = String.append "assets/drone.x."
            (String.append c ".32x32.png") ∧
      (UAVFeature.setColor f c).style.iconRotation
        = headingToRotation f.headingF ∧
      (UAVFeature.setColor f c).style.selectionRotation
        = headingToRotation f.headingF ∧
      (UAVFeature.setColor f c).style.labelText
        = (if f.uavId.isEmpty then "undefined" else f.uavId)) := by
  refine ⟨⟨?_, ?_, ?_⟩, ?_, ?_, ?_⟩
  · simp [UAVFeature.setHeading]
  · simp [UAVFeature.setSelected]
  · simp [UAVFeature.setColor]
  · intro hne
    simp [UAVFeature.setHeading, hne]
  · intro hne
    simp [UAVFeature.setSelected, UAVFeature.setupStyle, hne]
  · intro hne
    simp [UAVFeature.setColor, UAVFeature.setupStyle, hne]

/-- Witness for `C8_setters` at a concrete feature: the constructor's
feature for `"U1"` (heading 0, unselected, empty color). -/
theorem C8_setters_witness :
    (UAVFeature.mkFeature "U1").headingF ≠ 90 ∧
    (UAVFeature.setHeading (UAVFeature.mkFeature "U1") 90).headingF = 90 ∧
    (UAVFeature.setHeading (UAVFeature.mkFeature "U1") 90).style.gen
      = (UAVFeature.mkFeature "U1").style.gen ∧
    (UAVFeature.mkFeature "U1").selectedF ≠ true ∧
    (UAVFeature.setSelected (UAVFeature.mkFeature "U1")
        true).style.hasSelectionGlow = true ∧
    UAVFeature.setHeading (UAVFeature.mkFeature "U1")
        (UAVFeature.mkFeature "U1").headingF
      = UAVFeature.mkFeature "U1" := by
  have h := C8_setters (UAVFeature.mkFeature "U1") 90 true "red"
  have h1 := h.2.1 (by decide)
  have h2 := h.2.2.1 (by decide)
  exact ⟨by decide, h1.2.2.2.1, h1.2.2.2.2.1, by decide,
    h2.2.2.2.2.2.1, h.1.1⟩

/-! # Claim C9 — placeholders, statuses and the fill flag in the grid -/

/-- Claim C9: `createGridItems` maps each input entry to one rendered
item; an entry renders as a placeholder exactly when its UAV id is
undefined, such a placeholder's `status` is `'error'` when the entry
also has no mission index and `'off'` when one is present, an entry
with a real UAV id always renders as a drone avatar carrying that id,
and the `fill` flag is set exactly for the `deletionMarker` sentinel
entry. -/
theorem C9_grid_items (fmt : Nat → String) (edit : Bool)
    (cursor : Option Int) (sel : List String) (showM : Bool)
    (items : List UAVListEntry) (i : Nat) (hi : i < items.length) :
    (createGridItems fmt edit cursor sel showM items)[i]?
      = some (createGridItem fmt edit cursor sel showM
          (items.get ⟨i, hi⟩)) ∧
    ∀ item : UAVListEntry,
      ((createGridItem fmt edit cursor sel showM item).isPlaceholder
        = item.uavId.isNone) ∧
      (item.uavId = none →
        (createGridItem fmt edit cursor sel showM item).statusProp
          = some (if item.missionIndex.isNone then "error" else "off")) ∧
      (∀ u, item.uavId = some u →
        (createGridItem fmt edit cursor sel showM item).avatarId
          = some u) ∧
      ((createGridItem fmt edit cursor sel showM item).fillProp
        = item.isDeletionMarker) := by
  constructor
  · rw [createGridItems, List.getElem?_map, List.getElem?_eq_getElem hi]
    rfl
  · intro item
    refine ⟨?_, ?_, ?_, ?_⟩
    · cases hu : item.uavId <;>
        simp [createGridItem, GridItem.isPlaceholder, hu]
    · intro hu
      simp [createGridItem, GridItem.statusProp, hu]
    · intro u hu
      simp [createGridItem, GridItem.avatarId, hu]
    · cases hu : item.uavId <;>
        simp [createGridItem, GridItem.fillProp, hu]

/-- Witness for `C9_grid_items` at a concrete input: a one-element list
holding an empty-slot placeholder entry. -/
theorem C9_grid_items_witness :
    0 < ([(⟨none, some 3, none, false⟩ : UAVListEntry)]).length ∧
    (createGridItems fmtMissionIdSample false none [] true
        [⟨none, some 3, none, false⟩])[0]?
      = some (createGridItem fmtMissionIdSample false none [] true
          (([(⟨none, some 3, none, false⟩ : UAVListEntry)]).get
            ⟨0, by decide⟩)) :=
  ⟨by decide,
    (C9_grid_items fmtMissionIdSample false none [] true
      [⟨none, some 3, none, false⟩] 0 (by decide)).1⟩

/-! # Claim C10 — `createNewLayer` -/

/-- Claim C10: the claim matches the documented intent, but the code
crashes at the enum type `LayerType.UAVTrace = 'uavtrace'` with falsey
parameters.  The enum declares the key `UAVTrace` while the
trail-properties entry of `propertiesForLayerTypes_` is keyed by the
undeclared `LayerType.UAVTRACE` (= `undefined`), so the trail template
sits under the string key `"undefined"`, no `'uavtrace'` key exists,
`defaultParametersForLayerType('uavtrace')` throws a TypeError
(embedded as `none`), and `createNewLayer('uavtrace', name, null)`
propagates the exception instead of returning a layer with the trail
defaults.  The same undeclared property also appears in `LayerTypes`,
so the code contradicts its own enum declaration.  For comparison, a
type with a correctly keyed entry (`'base'`) behaves as the claim
states: visible, with its default parameters. -/
theorem C10_createNewLayer_uavtrace_crash :
    layerTypeEnum "UAVTrace" = some "uavtrace" ∧
    layerTypeEnum "UAVTRACE" = none ∧
    none ∈ LayerTypes ∧
    propsForLayerType "uavtrace" = none ∧
    propsForLayerType "undefined"
      = some
          ⟨"UAV Trace",
            some
              [("trailLength", ParamValue.num 10),
               ("trailWidth", ParamValue.num 2),
               ("trailColor", ParamValue.color ⟨0, 0, 0, 1⟩)]⟩ ∧
    defaultParametersForLayerType "uavtrace" = none ∧
    createNewLayer (layerTypeEnum "UAVTrace") "UAV trace layer" none
      = none ∧
    createNewLayer (layerTypeEnum "BASE") "Base layer" none
      = some
          ⟨"base", "Base layer", true,
            [("source", ParamValue.str "osm")]⟩ := by
  refine ⟨rfl, rfl, by decide, rfl, rfl, rfl, rfl, rfl⟩

end UAVConsole
